import Mathlib

/-!
# Verification of the S3 Tables MCP server query-execution core

A shallow embedding, in Lean 4, of the policy gate, SQL operation
classifier, ARN/reference parser, engine manager and engine adapters of
the `s3-tables-mcp-server` package, together with theorems settling the
specification claims about them.

Python strings are modelled as `List Char` (`Str`), Python `None`
as `Option.none`, raised exceptions as `Except` errors, and the
backends contacted over the network as explicit parameters/events.
-/

namespace S3Tables

/-- Python strings, modelled as lists of characters. -/
abbrev Str : Type := List Char

/-- Python `str.upper()` (ASCII, which is all the code relies on). -/
def upperStr (s : Str) : Str := s.map Char.toUpper

/-- Returns `true` iff `pre` is an initial segment of `s`. -/
def startsWithStr : Str → Str → Bool
  | [], _ => true
  | _ :: _, [] => false
  | p :: ps, c :: cs => p == c && startsWithStr ps cs

/-- Python's substring test `needle in hay`. -/
def isSubstring (needle : Str) : Str → Bool
  | [] => startsWithStr needle []
  | c :: cs => startsWithStr needle (c :: cs) || isSubstring needle cs

/-- Python `s.split(sep)`: splits on every occurrence of `sep`,
keeping empty pieces (`''.split(sep) == ['']`). -/
def splitOn (sep : Char) : Str → List Str
  | [] => [[]]
  | c :: cs =>
    if c = sep then [] :: splitOn sep cs
    else
      match splitOn sep cs with
      | [] => [[c]]
      | t :: ts => (c :: t) :: ts

/-- Split on every character satisfying `p`, keeping empty pieces. -/
def splitOnP (p : Char → Bool) : Str → List Str
  | [] => [[]]
  | c :: cs =>
    if p c then [] :: splitOnP p cs
    else
      match splitOnP p cs with
      | [] => [[c]]
      | t :: ts => (c :: t) :: ts

/-- SQL whitespace characters. -/
def isWsChar (c : Char) : Bool :=
  c == ' ' || c == '\t' || c == '\n' || c == '\r'

/-- Whitespace-delimited tokens of a statement (empty pieces dropped,
mirroring `if not token.is_whitespace`). -/
def wsTokens (s : Str) : List Str :=
  (splitOnP isWsChar s).filter (fun t => !t.isEmpty)

/-! ## SQL operation classifier (`database.py`, `validate_read_only_query`) -/

/-- The `write_keywords` set from `contains_write_operation`
(`database.py` lines 52–67), verbatim. -/
def write_keywords : List Str :=
  ["INSERT".toList, "UPDATE".toList, "DELETE".toList, "CREATE".toList,
   "ALTER".toList, "DROP".toList, "TRUNCATE".toList, "MERGE".toList,
   "REPLACE".toList, "VACUUM".toList, "LOAD".toList, "COPY".toList,
   "WRITE".toList, "UPSERT".toList]

/-- The loop body of `contains_write_operation` (`database.py` lines
69–73): for each parsed statement, uppercase its non-whitespace
top-level token values and test membership in `write_keywords`.
The statements are given as lists of token values. -/
def contains_write_operation_tokens (stmts : List (List Str)) : Bool :=
  stmts.any (fun tokens =>
    tokens.any (fun t => write_keywords.contains (upperStr t)))

/-- Modelled from the spec: `sqlparse.parse` is an external library
(not part of this repository); per §4.2 it tokenizes "respecting
whitespace boundaries (a real SQL-aware tokenizer, not naive
splitting, so that identifiers like `insertion_logs` are not mistaken
for the keyword `INSERT`)". We model its top-level token values as
the whitespace-delimited words of each `;`-separated statement. -/
def sqlparseTopLevel (sql : Str) : List (List Str) :=
  (splitOn ';' sql).map wsTokens

/-- The function `contains_write_operation` (`database.py` lines 42–73). -/
def contains_write_operation (sql : Str) : Bool :=
  contains_write_operation_tokens (sqlparseTopLevel sql)

/-- The fixed message of the `ValueError` raised by
`validate_read_only_query` (`database.py` line 76). -/
def readOnlyViolationMsg : Str :=
  "Write operations are not allowed in read-only queries".toList

/-- The function `validate_read_only_query` (`database.py` lines 29–78): returns
`True`, or raises `ValueError` with a fixed message when the query
contains a write operation. -/
def validate_read_only_query (query : Str) : Except Str Bool :=
  if contains_write_operation query then Except.error readOnlyViolationMsg
  else Except.ok true

/-- Variant of `validate_read_only_query` applied to already-tokenized statements
(factoring the external tokenizer out of the repository's own logic). -/
def validate_read_only_query_tokens (stmts : List (List Str)) : Except Str Bool :=
  if contains_write_operation_tokens stmts then Except.error readOnlyViolationMsg
  else Except.ok true

/-! ## ARN/reference parser (`engines/base_engine.py`, `parse_table_arn`) -/

/-- The dict returned by `parse_table_arn`. -/
structure TableRef where
  region : Str
  account_id : Str
  bucket_name : Str
  table_name : Str
deriving DecidableEq, Repr

/-- The method `BaseQueryEngine.parse_table_arn` (`base_engine.py` lines 38–62):
split on `:`; require at least 6 segments; take region = parts[3],
account = parts[4]; split parts[5] on `/`; require exactly
`bucket/<name>/table/<id>`; raise `ValueError` otherwise. -/
def parse_table_arn (table_arn : Str) : Except Str TableRef :=
  let parts := splitOn ':' table_arn
  if parts.length < 6 then
    Except.error ("Invalid table ARN format: ".toList ++ table_arn)
  else
    let region := parts.getD 3 []
    let account_id := parts.getD 4 []
    let resource_parts := splitOn '/' (parts.getD 5 [])
    if resource_parts.length ≠ 4 ∨ resource_parts.getD 0 [] ≠ "bucket".toList
        ∨ resource_parts.getD 2 [] ≠ "table".toList then
      Except.error ("Invalid table ARN resource format: ".toList ++ table_arn
        ++ ". Expected: bucket/bucket-name/table/table-name".toList)
    else
      Except.ok
        { region := region, account_id := account_id,
          bucket_name := resource_parts.getD 1 [],
          table_name := resource_parts.getD 3 [] }

/-! ## Data model (`models.py`) -/

/-- The `QueryEngine` enum (`models.py` lines 85–91). -/
inductive QueryEngine where
  | auto
  | duckdb
  | athena
  | spark
  | glue
deriving DecidableEq, Repr

/-- The string value of each `QueryEngine` member. -/
def QueryEngine.value : QueryEngine → Str
  | .auto => "auto".toList
  | .duckdb => "duckdb".toList
  | .athena => "athena".toList
  | .spark => "spark".toList
  | .glue => "glue".toList

/-- The `QueryResult.status` literal type. -/
inductive QStatus where
  | success
  | error
deriving DecidableEq, Repr

/-- Python values carried in result rows. -/
inductive PyValue where
  | str (s : Str)
  | int (n : Int)
  | null
deriving DecidableEq, Repr

/-- The `QueryResult` pydantic model (`models.py` lines 290–299). A row is
the `dict(zip(columns, values))` of a backend row, modelled as the
column/value pairs in order; `result_schema` is modelled by its
`columns` entry. -/
structure QueryResult where
  status : QStatus
  message : Option Str := none
  rows_returned : Option Nat := none
  execution_time_ms : Option Nat := none
  engine_used : Option QueryEngine := none
  data : Option (List (List (Str × PyValue))) := none
  result_schema : Option (List Str) := none
  next_token : Option Str := none
deriving DecidableEq, Repr

/-! ## Engine manager (`engines/engine_manager.py`) -/

/-- The engine registry: the keys of `self.engines` in insertion order
(Python dicts iterate in insertion order, giving `next(iter(...))` a
deterministic meaning). -/
abbrev EngineRegistry : Type := List QueryEngine

/-- The method `EngineManager.select_engine` (`engine_manager.py` lines 67–89).
Returns `none` exactly when the final `next(iter(self.engines.keys()))`
raises `StopIteration`, i.e. when the registry is empty. -/
def select_engine (engines : EngineRegistry) (sql_query : Str)
    (engine_preference : QueryEngine) : Option QueryEngine :=
  if engine_preference != QueryEngine.auto && engines.contains engine_preference then
    some engine_preference
  else if (!isSubstring "JOIN".toList (upperStr sql_query)
      && !isSubstring "GROUP BY".toList (upperStr sql_query)
      && decide (sql_query.length < 500))
      && engines.contains QueryEngine.duckdb then
    some QueryEngine.duckdb
  else if (isSubstring "JOIN".toList (upperStr sql_query)
      || isSubstring "GROUP BY".toList (upperStr sql_query)
      || isSubstring "WINDOW".toList (upperStr sql_query)
      || isSubstring "WITH".toList (upperStr sql_query))
      && engines.contains QueryEngine.athena then
    some QueryEngine.athena
  else if engines.contains QueryEngine.duckdb then
    some QueryEngine.duckdb
  else
    engines.head?

/-- The message of the error `QueryResult` synthesized by
`EngineManager.execute_query` (`engine_manager.py` line 98). -/
def engineUnavailableMsg (e : QueryEngine) : Str :=
  "Engine ".toList ++ e.value ++ " is not available".toList

/-- Exceptions the engine manager can propagate. -/
inductive PyExn where
  | stopIteration
deriving DecidableEq, Repr

/-- The method `EngineManager.execute_query` (`engine_manager.py` lines 91–103).
The per-call behaviour of the selected adapter (a coroutine over the
fixed `table_arn`, `sql_query`, `limit` arguments) is abstracted as
`adapter : QueryEngine → QueryResult`. -/
def EngineManager.execute_query (engines : EngineRegistry)
    (adapter : QueryEngine → QueryResult) (sql_query : Str)
    (engine_preference : QueryEngine) : Except PyExn QueryResult :=
  match select_engine engines sql_query engine_preference with
  | none => Except.error PyExn.stopIteration
  | some selected =>
    if !engines.contains selected then
      Except.ok
        { status := QStatus.error,
          message := some (engineUnavailableMsg selected),
          engine_used := some selected }
    else
      Except.ok (adapter selected)

/-! ## Adapter result construction (`duckdb_engine.py`, `athena_engine.py`,
`emr_engine.py`) -/

/-- Outcome of the `try` body of `DuckDBEngine.execute_query`: either
some exception (any step: connection, table lookup, attachment, the
query itself), or the native cursor output `(conn.description` column
names, `fetchall()` rows`)`. -/
inductive DuckDBOutcome where
  | exn (msg : Str)
  | ok (columns : List Str) (result : List (List PyValue))
deriving DecidableEq, Repr

/-- Result construction of `DuckDBEngine.execute_query`
(`duckdb_engine.py` lines 214–241): on success
`data = [dict(zip(columns, row)) for row in result]` and
`rows_returned = len(data)`; on any exception an error result with a
prefixed message and no `data`. -/
def duckdb_execute_query (o : DuckDBOutcome) (execution_time : Nat) : QueryResult :=
  match o with
  | .ok columns result =>
    let data := result.map (fun row => columns.zip row)
    { status := QStatus.success,
      rows_returned := some data.length,
      execution_time_ms := some execution_time,
      engine_used := some QueryEngine.duckdb,
      data := some data,
      result_schema := some columns }
  | .exn e =>
    { status := QStatus.error,
      message := some ("DuckDB execution failed: ".toList ++ e),
      execution_time_ms := some execution_time,
      engine_used := some QueryEngine.duckdb }

/-- Outcome of `AthenaEngine.execute_query` up to result parsing:
either some exception, or the polled `ResultSet.Rows`, each row the
list of its `Data` cells (`none` = cell without a `VarCharValue`). -/
inductive AthenaOutcome where
  | exn (msg : Str)
  | ok (resultRows : List (List (Option Str)))
deriving DecidableEq, Repr

/-- All cells present (`col['VarCharValue']` succeeds on each). -/
def seqCells : List (Option Str) → Option (List Str)
  | [] => some []
  | none :: _ => none
  | some c :: rest => (seqCells rest).map (fun cs => c :: cs)

/-- The error result built by the `except` clause of
`AthenaEngine.execute_query` (`athena_engine.py` lines 408–417). -/
def athenaErrorResult (e : Str) (execution_time : Nat) : QueryResult :=
  { status := QStatus.error,
    message := some ("Athena execution failed: ".toList ++ e),
    execution_time_ms := some execution_time,
    engine_used := some QueryEngine.athena }

/-- Result construction of `AthenaEngine.execute_query`
(`athena_engine.py` lines 374–417): first result row is the header
(`col['VarCharValue']`, raising `KeyError` on a missing value), the
remaining rows become dicts over the header columns
(`row['Data'][i].get('VarCharValue', '')`, raising `IndexError` when a
row is shorter than the header); `rows_returned = len(data)`; any
exception yields an error result with a prefixed message. -/
def athena_execute_query (o : AthenaOutcome) (execution_time : Nat) : QueryResult :=
  match o with
  | .exn e => athenaErrorResult e execution_time
  | .ok [] =>
    { status := QStatus.success,
      rows_returned := some 0,
      execution_time_ms := some execution_time,
      engine_used := some QueryEngine.athena,
      data := some [],
      result_schema := some [] }
  | .ok (header :: rest) =>
    match seqCells header with
    | none => athenaErrorResult "'VarCharValue'".toList execution_time
    | some columns =>
      if rest.any (fun r => r.length < columns.length) then
        athenaErrorResult "list index out of range".toList execution_time
      else
        let data := rest.map (fun r =>
          columns.zip (r.map (fun c => PyValue.str (c.getD []))))
        { status := QStatus.success,
          rows_returned := some data.length,
          execution_time_ms := some execution_time,
          engine_used := some QueryEngine.athena,
          data := some data,
          result_schema := some columns }

/-- Outcome of `EMRServerlessEngine.execute_query`: the job reached
`SUCCESS`, or some exception was raised (submission failure, or a
`FAILED`/`CANCELLED` terminal state re-raised as an exception). -/
inductive EMROutcome where
  | exn (msg : Str)
  | ok
deriving DecidableEq, Repr

/-- Result construction of `EMRServerlessEngine.execute_query`
(`emr_engine.py` lines 179–198): success returns a fixed shape with
`rows_returned = 0` and `data = []` (log parsing is stubbed); any
exception yields an error result with a prefixed message. -/
def emr_execute_query (o : EMROutcome) (execution_time : Nat) : QueryResult :=
  match o with
  | .ok =>
    { status := QStatus.success,
      message := some "Query executed successfully on EMR Serverless".toList,
      rows_returned := some 0,
      execution_time_ms := some execution_time,
      engine_used := some QueryEngine.spark,
      data := some [],
      result_schema := some [] }
  | .exn e =>
    { status := QStatus.error,
      message := some ("EMR Serverless execution failed: ".toList ++ e),
      execution_time_ms := some execution_time,
      engine_used := some QueryEngine.spark }

/-! ## Row-limit clause (`duckdb_engine.py` lines 207–209 and
`athena_engine.py` lines 285–287, identical code at both sites) -/

/-- Python truthiness of an `Optional[int]`: `None` and `0` are falsy. -/
def pyTruthyNat : Option Nat → Bool
  | none => false
  | some n => n != 0

/-- Decimal rendering of the limit, as `f' LIMIT {limit}'` does. -/
def natStr (n : Nat) : Str := (Nat.repr n).toList

/-- The step `if limit and 'LIMIT' not in modified_query.upper():
modified_query += f' LIMIT {limit}'` — the limit-application step
shared verbatim by `DuckDBEngine.execute_query` and
`AthenaEngine.execute_query`. -/
def apply_limit_clause (limit : Option Nat) (modified_query : Str) : Str :=
  if pyTruthyNat limit && !isSubstring "LIMIT".toList (upperStr modified_query) then
    modified_query ++ " LIMIT ".toList ++ natStr (limit.getD 0)
  else
    modified_query

/-! ## Database entry points (`database.py`) -/

/-- Observable backend contacts made by `_execute_database_query`:
`AthenaEngine.test_connection` runs `SELECT 1` against Athena
(`engines/athena.py` lines 164–175), and `AthenaEngine.execute_query`
submits the caller's query. -/
inductive BackendEvent where
  | testConnection
  | executeQuery
deriving DecidableEq, Repr

/-- Exceptions `_execute_database_query` can raise. -/
inductive DBError where
  | valueError (msg : Str)
  | connectionError (msg : Str)
  | indexError
deriving DecidableEq, Repr

/-- The dict returned by `AthenaEngine.execute_query`
(`engines/athena.py`), as consumed by `_execute_database_query`;
`query_execution` metadata is abstracted as a blob. -/
structure AthenaResults where
  columns : List Str
  rows : List (List PyValue)
  output_location : Str
  query_execution : Str
deriving DecidableEq, Repr

/-- External state observed by `_execute_database_query`: the
`AWS_REGION` environment variable, whether `engine.test_connection()`
succeeds, and the backend's response to the executed query. Engine
construction (`AthenaEngine(config)`) is treated as succeeding; its
possible `ConnectionError` is subsumed by `connectionOk = false` for
the purposes of the claims. -/
structure DBEnv where
  awsRegionEnv : Option Str
  connectionOk : Bool
  results : AthenaResults
deriving DecidableEq, Repr

/-- The success payload of `_execute_database_query`
(`database.py` lines 149–159). -/
structure DBSuccess where
  columns : List Str
  rows : List (List PyValue)
  output_location : Str
  query_execution : Str
deriving DecidableEq, Repr

/-- Python `a or b` on an optional string: `None` and `''` are falsy. -/
def pyStrOr (a b : Option Str) : Option Str :=
  match a with
  | some s => if s.isEmpty then b else some s
  | none => b

/-- Message of the `ValueError` raised when no region is configured. -/
def awsRegionMissingMsg : Str :=
  "AWS_REGION environment variable must be set".toList

/-- The helper `_execute_database_query` (`database.py` lines 81–159), returning
the result (or raised exception) together with the ordered list of
backend contacts it made. Order of operations, exactly as in the
source: region resolution, ARN field extraction, output-location
default, engine construction, `test_connection` (a backend call),
then — only if requested — `validate_read_only_query`, then query
execution (the version comment prepended to the query does not affect
anything observable here). -/
def execute_database_query_impl (env : DBEnv) (table_bucket_arn : Str)
    (query : Str) (output_location : Option Str)
    (validate_read_only : Bool) (region_name : Option Str) :
    Except DBError DBSuccess × List BackendEvent :=
  match pyStrOr region_name env.awsRegionEnv with
  | none => (Except.error (DBError.valueError awsRegionMissingMsg), [])
  | some region =>
    if region.isEmpty then
      (Except.error (DBError.valueError awsRegionMissingMsg), [])
    else
      let parts := splitOn ':' table_bucket_arn
      if parts.length < 5 then
        (Except.error DBError.indexError, [])
      else
        let account_id := parts.getD 4 []
        let _output_location :=
          match output_location with
          | none =>
            "s3://aws-athena-query-results-".toList ++ account_id
              ++ "-".toList ++ region ++ "/".toList
          | some ol => ol
        if !env.connectionOk then
          (Except.error (DBError.connectionError "Failed to connect to Athena".toList),
           [BackendEvent.testConnection])
        else if validate_read_only && contains_write_operation query then
          (Except.error (DBError.valueError readOnlyViolationMsg),
           [BackendEvent.testConnection])
        else
          (Except.ok
            { columns := env.results.columns, rows := env.results.rows,
              output_location := env.results.output_location,
              query_execution := env.results.query_execution },
           [BackendEvent.testConnection, BackendEvent.executeQuery])

/-- The entry point `query_database_resource` (`database.py` lines 162–195): the
read-only entry point, `validate_read_only=True`. -/
def query_database_resource (env : DBEnv) (table_bucket_arn : Str)
    (query : Str) (output_location : Option Str) (region_name : Option Str) :
    Except DBError DBSuccess × List BackendEvent :=
  execute_database_query_impl env table_bucket_arn query output_location true region_name

/-- The entry point `modify_database_resource` (`database.py` lines 198–231): the
write-permitting entry point, `validate_read_only=False`. -/
def modify_database_resource (env : DBEnv) (table_bucket_arn : Str)
    (query : Str) (output_location : Option Str) (region_name : Option Str) :
    Except DBError DBSuccess × List BackendEvent :=
  execute_database_query_impl env table_bucket_arn query output_location false region_name

/-- The DESTRUCTIVE vocabulary. Modelled from the spec: no such set
exists anywhere in the source; §4.2 defines it as "the subset of WRITE
that is irreversible or schema-altering (drop, truncate, delete,
merge, replace, vacuum)". -/
def destructive_keywords : List Str :=
  ["DROP".toList, "TRUNCATE".toList, "DELETE".toList, "MERGE".toList,
   "REPLACE".toList, "VACUUM".toList]

/-! ## Server-level write gate (`server.py`, `write_operation`) -/

/-- Message of the `ValueError` raised by the gate (`server.py` line 96). -/
def readOnlyModeMsg : Str :=
  "Operation not permitted: Server is configured in read-only mode".toList

/-- The `write_operation` decorator's wrapper (`server.py` lines
80–99): check `app.allow_write` first; raise `ValueError` without
calling `func` when it is unset, otherwise call `func` on the original
arguments. -/
def write_operation {α β : Type} (allow_write : Bool) (func : α → β)
    (args : α) : Except Str β :=
  if !allow_write then Except.error readOnlyModeMsg
  else Except.ok (func args)

/-! ## Shared sample inputs and predicates used by the theorems -/

/-- The `QueryResult` invariant of §3 of the spec: on success
`rows_returned = len(data)`; on error no `data` and a populated,
non-empty `message`. -/
def resultInvariant (r : QueryResult) : Prop :=
  (r.status = QStatus.success → ∃ d, r.data = some d ∧ r.rows_returned = some d.length) ∧
  (r.status = QStatus.error → r.data = none ∧ ∃ m, r.message = some m ∧ m ≠ [])

/-- A concrete backend response for exercising the database pipeline. -/
def sampleResults : AthenaResults :=
  { columns := ["id".toList], rows := [[PyValue.int 1]],
    output_location := "s3://results/".toList,
    query_execution := "exec-1".toList }

/-- A concrete healthy environment: region set, connection up. -/
def sampleEnv : DBEnv :=
  { awsRegionEnv := some "us-west-2".toList, connectionOk := true,
    results := sampleResults }

/-- A concrete table-bucket ARN. -/
def sampleArn : Str :=
  "arn:aws:s3tables:us-west-2:123456789012:bucket/test-bucket".toList

/-- The success payload the pipeline returns under `sampleEnv`. -/
def sampleSuccess : DBSuccess :=
  { columns := sampleResults.columns, rows := sampleResults.rows,
    output_location := sampleResults.output_location,
    query_execution := sampleResults.query_execution }

/-! ## Helper lemmas -/

theorem splitOn_of_not_mem {sep : Char} {s : Str} (h : sep ∉ s) :
    splitOn sep s = [s] := by
  induction s with
  | nil => simp [splitOn]
  | cons c cs ih =>
    simp only [List.mem_cons, not_or] at h
    simp only [splitOn, if_neg (Ne.symm h.1)]
    rw [ih h.2]

theorem splitOn_append_sep {sep : Char} {x : Str} (y : Str) (h : sep ∉ x) :
    splitOn sep (x ++ sep :: y) = x :: splitOn sep y := by
  induction x with
  | nil => simp [splitOn]
  | cons c cs ih =>
    simp only [List.mem_cons, not_or] at h
    simp only [List.cons_append, splitOn, if_neg (Ne.symm h.1)]
    simp only [List.append_eq]
    rw [ih h.2]

theorem string_toList_ne_nil {s : String} (h : s ≠ "") : s.toList ≠ [] := by
  intro hc
  apply h
  apply String.ext
  simpa [String.toList] using hc

theorem toList_append_ne_nil (s : String) (h : s ≠ "") (e : Str) :
    s.toList ++ e ≠ [] := by
  intro hc
  exact string_toList_ne_nil h (List.append_eq_nil.mp hc).1

theorem toList_append_append_ne_nil (s : String) (h : s ≠ "") (e f : Str) :
    s.toList ++ e ++ f ≠ [] := by
  intro hc
  simp only [List.append_eq_nil] at hc
  exact string_toList_ne_nil h hc.1.1

theorem parse_table_arn_eval {arn p0 p1 p2 p3 p4 res r1 r3 : Str}
    (hsplit : splitOn ':' arn = [p0, p1, p2, p3, p4, res])
    (hres : splitOn '/' res = ["bucket".toList, r1, "table".toList, r3]) :
    parse_table_arn arn =
      Except.ok { region := p3, account_id := p4, bucket_name := r1, table_name := r3 } := by
  simp [parse_table_arn, hsplit, hres, List.getD]

theorem contains_write_operation_tokens_of_head {first : Str} {rest : List Str}
    (stmts : List (List Str)) (h : upperStr first ∈ write_keywords) :
    contains_write_operation_tokens ((first :: rest) :: stmts) = true := by
  unfold contains_write_operation_tokens
  simp only [List.any_cons, List.any_eq_true, Bool.or_eq_true]
  exact Or.inl (Or.inl (by simpa using h))

/-! ## Claim theorems -/

/-- Claim C8: Every `QueryResult` built by an adapter's `execute_query`
satisfies the normalized-result invariant: on `success`,
`rows_returned` equals the length of `data`; on `error`, `data` is
absent and `message` is a populated, non-empty string. This holds for
all three adapters (`DuckDBEngine`, `AthenaEngine`,
`EMRServerlessEngine`) and every backend outcome. -/
theorem adapters_preserve_result_invariant (od : DuckDBOutcome)
    (oa : AthenaOutcome) (oe : EMROutcome) (t₁ t₂ t₃ : Nat) :
    resultInvariant (duckdb_execute_query od t₁) ∧
    resultInvariant (athena_execute_query oa t₂) ∧
    resultInvariant (emr_execute_query oe t₃) := by
  unfold resultInvariant
  refine ⟨?_, ?_, ?_⟩
  · cases od with
    | ok columns result =>
      refine ⟨fun _ => ⟨result.map (fun row => columns.zip row), ⟨rfl, rfl⟩⟩, fun h => ?_⟩
      simp [duckdb_execute_query] at h
    | exn e =>
      refine ⟨fun h => ?_,
        fun _ => ⟨rfl, ⟨"DuckDB execution failed: ".toList ++ e, ⟨rfl, ?_⟩⟩⟩⟩
      · simp [duckdb_execute_query] at h
      · exact toList_append_ne_nil "DuckDB execution failed: " (by decide) e
  · cases oa with
    | exn e =>
      refine ⟨fun h => ?_,
        fun _ => ⟨rfl, ⟨"Athena execution failed: ".toList ++ e, ⟨rfl, ?_⟩⟩⟩⟩
      · simp [athena_execute_query, athenaErrorResult] at h
      · exact toList_append_ne_nil "Athena execution failed: " (by decide) e
    | ok rows =>
      cases rows with
      | nil =>
        refine ⟨fun _ => ⟨[], ⟨rfl, rfl⟩⟩, fun h => ?_⟩
        simp [athena_execute_query] at h
      | cons header rest =>
        simp only [athena_execute_query]
        cases seqCells header with
        | none =>
          refine ⟨fun h => ?_,
            fun _ => ⟨rfl,
              ⟨"Athena execution failed: ".toList ++ "'VarCharValue'".toList, ⟨rfl, ?_⟩⟩⟩⟩
          · simp [athenaErrorResult] at h
          · exact toList_append_ne_nil "Athena execution failed: " (by decide) _
        | some columns =>
          dsimp only
          by_cases hshort : (rest.any fun r => decide (r.length < columns.length)) = true
          · rw [if_pos hshort]
            refine ⟨fun h => ?_,
              fun _ => ⟨rfl,
                ⟨"Athena execution failed: ".toList ++ "list index out of range".toList,
                 ⟨rfl, ?_⟩⟩⟩⟩
            · simp [athenaErrorResult] at h
            · exact toList_append_ne_nil "Athena execution failed: " (by decide) _
          · rw [if_neg hshort]
            refine ⟨fun _ =>
              ⟨rest.map (fun r => columns.zip (r.map (fun c => PyValue.str (c.getD [])))),
               ⟨rfl, rfl⟩⟩, fun h => ?_⟩
            simp at h
  · cases oe with
    | ok =>
      refine ⟨fun _ => ⟨[], ⟨rfl, rfl⟩⟩, fun h => ?_⟩
      simp [emr_execute_query] at h
    | exn e =>
      refine ⟨fun h => ?_,
        fun _ => ⟨rfl, ⟨"EMR Serverless execution failed: ".toList ++ e, ⟨rfl, ?_⟩⟩⟩⟩
      · simp [emr_execute_query] at h
      · exact toList_append_ne_nil "EMR Serverless execution failed: " (by decide) e

/-- Claim C9: The `write_operation` decorator gates every wrapped tool
function on the server-level `allow_write` flag: when the flag is
`false` the call raises the read-only-mode `ValueError` and the
wrapped body is never invoked (the outcome does not depend on the
wrapped function at all); when the flag is `true` the body is invoked
on the original arguments and its value returned. -/
theorem write_operation_gates_on_allow_write {α β : Type}
    (f g : α → β) (x : α) :
    write_operation false f x = Except.error readOnlyModeMsg ∧
    write_operation false f x = write_operation false g x ∧
    write_operation true f x = Except.ok (f x) := by
  refine ⟨rfl, rfl, rfl⟩

/-- Claim C4: `validate_read_only_query` compares whole top-level
tokens against the write-keyword set, never substrings: any SQL
string none of whose top-level tokens uppercases into the
`write_keywords` set is accepted, even when a token contains a
forbidden keyword as a proper substring (e.g.
`SELECT * FROM insertion_logs`, exercised by the witness). -/
theorem read_only_gate_has_no_substring_false_positives (sql : Str)
    (h : ∀ stmt ∈ sqlparseTopLevel sql, ∀ t ∈ stmt, upperStr t ∉ write_keywords) :
    validate_read_only_query sql = Except.ok true := by
  have hc : contains_write_operation sql = false := by
    unfold contains_write_operation contains_write_operation_tokens
    simp only [List.any_eq_false, Bool.not_eq_true]
    intro stmt hstmt t ht
    rw [Bool.eq_false_iff]
    intro hcontains
    exact h stmt hstmt t ht (by simpa using hcontains)
  unfold validate_read_only_query
  rw [hc]
  rfl

theorem read_only_gate_substring_witness :
    validate_read_only_query "SELECT * FROM insertion_logs".toList = Except.ok true ∧
    isSubstring "INSERT".toList (upperStr "SELECT * FROM insertion_logs".toList) = true :=
  ⟨read_only_gate_has_no_substring_false_positives _ (by decide), by decide⟩

/-- Claim C3, counterexample: A single-statement query beginning with the
WRITE keyword `INSERT` is rejected, but — contrary to the claim — the
raised message is a fixed sentence that does not name `INSERT` (nor
enumerate any keyword set). -/
theorem read_only_rejection_message_counterexample :
    validate_read_only_query "INSERT INTO t VALUES (1)".toList
      = Except.error readOnlyViolationMsg ∧
    isSubstring "INSERT".toList (upperStr readOnlyViolationMsg) = false :=
  ⟨rfl, by decide⟩

/-- Claim C3, amended: For every statement whose first top-level token
uppercases into the WRITE vocabulary, read-only mode rejects the query
by raising `ValueError` — but always with the same fixed,
keyword-independent message
`'Write operations are not allowed in read-only queries'`. -/
theorem read_only_rejects_queries_starting_with_write_keyword
    (first : Str) (rest : List Str) (stmts : List (List Str))
    (h : upperStr first ∈ write_keywords) :
    validate_read_only_query_tokens ((first :: rest) :: stmts)
      = Except.error readOnlyViolationMsg := by
  unfold validate_read_only_query_tokens
  rw [contains_write_operation_tokens_of_head stmts h]
  rfl

theorem read_only_rejects_write_keyword_witness :
    validate_read_only_query_tokens
        [["insert".toList, "INTO".toList, "t".toList]]
      = Except.error readOnlyViolationMsg :=
  read_only_rejects_queries_starting_with_write_keyword
    "insert".toList ["INTO".toList, "t".toList] [] (by decide)

/-- Claim C5, counterexample: `parse_table_arn` accepts strings that are
not of the form `arn:partition:service:region:account:bucket/B/table/T`:
a trailing seventh `:`-segment is silently ignored (only `≥ 6`
segments are required). The claim that every other shape raises a
`ValueError` is therefore false. -/
theorem parse_table_arn_extra_segment_counterexample :
    parse_table_arn "arn:aws:s3tables:us-west-2:123456789012:bucket/b/table/t:extra".toList
      = Except.ok
          { region := "us-west-2".toList, account_id := "123456789012".toList,
            bucket_name := "b".toList, table_name := "t".toList } := by
  rfl

/-- Claim C5, amended: Every input of the form
`arn:partition:service:region:account:bucket/B/table/T` (components
free of the separators `:`, and `B`, `T` free of `/`) parses to
exactly `{region, account_id, bucket_name = B, table_name = T}`, and
every rejection carries a non-empty message — but the parser rejects
only inputs with fewer than six `:`-segments or a malformed sixth
segment: the `arn` literal, partition and service are not validated
and extra trailing segments are ignored. -/
theorem parse_table_arn_spec :
    (∀ partition service region account bkt tid : Str,
      ':' ∉ partition → ':' ∉ service → ':' ∉ region → ':' ∉ account →
      ':' ∉ bkt → ':' ∉ tid → '/' ∉ bkt → '/' ∉ tid →
      parse_table_arn ("arn".toList ++ ':' :: (partition ++ ':' :: (service ++ ':' ::
          (region ++ ':' :: (account ++ ':' ::
            ("bucket".toList ++ '/' :: (bkt ++ '/' :: ("table".toList ++ '/' :: tid))))))))
        = Except.ok
            { region := region, account_id := account,
              bucket_name := bkt, table_name := tid }) ∧
    (∀ (arn m : Str), parse_table_arn arn = Except.error m → m ≠ []) := by
  constructor
  · intro p s r a bkt tid hp hs hr ha hb ht hb' ht'
    have hbu : (':' : Char) ∉ "bucket".toList := by decide
    have hta : (':' : Char) ∉ "table".toList := by decide
    have hres : ':' ∉ ("bucket".toList ++ '/' ::
        (bkt ++ '/' :: ("table".toList ++ '/' :: tid))) := by
      simp only [List.mem_append, List.mem_cons, not_or]
      exact ⟨hbu, by decide, hb, by decide, hta, by decide, ht⟩
    have hsplit : splitOn ':' ("arn".toList ++ ':' :: (p ++ ':' :: (s ++ ':' ::
        (r ++ ':' :: (a ++ ':' ::
          ("bucket".toList ++ '/' :: (bkt ++ '/' :: ("table".toList ++ '/' :: tid))))))))
        = ["arn".toList, p, s, r, a,
           "bucket".toList ++ '/' :: (bkt ++ '/' :: ("table".toList ++ '/' :: tid))] := by
      rw [splitOn_append_sep _ (by decide), splitOn_append_sep _ hp,
        splitOn_append_sep _ hs, splitOn_append_sep _ hr,
        splitOn_append_sep _ ha, splitOn_of_not_mem hres]
    have hressplit : splitOn '/' ("bucket".toList ++ '/' ::
        (bkt ++ '/' :: ("table".toList ++ '/' :: tid)))
        = ["bucket".toList, bkt, "table".toList, tid] := by
      rw [splitOn_append_sep _ (by decide), splitOn_append_sep _ hb',
        splitOn_append_sep _ (by decide), splitOn_of_not_mem ht']
    exact parse_table_arn_eval hsplit hressplit
  · intro arn m h
    simp only [parse_table_arn] at h
    split at h
    · cases h
      exact toList_append_ne_nil "Invalid table ARN format: " (by decide) arn
    · split at h
      · cases h
        exact toList_append_append_ne_nil "Invalid table ARN resource format: "
          (by decide) arn _
      · cases h

theorem parse_table_arn_scenario_witness :
    parse_table_arn
        "arn:aws:s3tables:us-west-2:123456789012:bucket/test-bucket/table/abc123".toList
      = Except.ok
          { region := "us-west-2".toList, account_id := "123456789012".toList,
            bucket_name := "test-bucket".toList, table_name := "abc123".toList } := by
  have h := parse_table_arn_spec.1 "aws".toList "s3tables".toList "us-west-2".toList
    "123456789012".toList "test-bucket".toList "abc123".toList
    (by decide) (by decide) (by decide) (by decide) (by decide) (by decide)
    (by decide) (by decide)
  exact h

/-- Claim C6, counterexample: With an empty registry,
`EngineManager.execute_query` does raise: `select_engine` evaluates
`next(iter(self.engines.keys()))` on an empty dict, so `StopIteration`
propagates instead of an error `QueryResult` being returned. -/
theorem execute_query_empty_registry_counterexample :
    EngineManager.execute_query [] (fun _ => { status := QStatus.success })
        "SELECT 1".toList QueryEngine.auto
      = Except.error PyExn.stopIteration := by
  rfl

/-- Claim C6, amended: Whenever the registry is non-empty,
`EngineManager.execute_query` never raises: engine selection always
yields a registered engine, execution delegates to that adapter, and
the synthesized `'Engine ... is not available'` error result is never
produced (that guard is unreachable). With an empty registry,
selection raises `StopIteration` (see the counterexample) rather than
returning an error result. -/
theorem execute_query_never_raises_on_nonempty_registry
    (engines : EngineRegistry) (adapter : QueryEngine → QueryResult)
    (sql_query : Str) (pref : QueryEngine) (hne : engines ≠ []) :
    ∃ e, select_engine engines sql_query pref = some e ∧ e ∈ engines ∧
      EngineManager.execute_query engines adapter sql_query pref
        = Except.ok (adapter e) := by
  have hsel : ∃ e, select_engine engines sql_query pref = some e ∧ e ∈ engines := by
    unfold select_engine
    split_ifs with h1 h2 h3 h4
    · rw [Bool.and_eq_true] at h1
      exact ⟨pref, rfl, List.mem_of_elem_eq_true h1.2⟩
    · rw [Bool.and_eq_true] at h2
      exact ⟨QueryEngine.duckdb, rfl, List.mem_of_elem_eq_true h2.2⟩
    · rw [Bool.and_eq_true] at h3
      exact ⟨QueryEngine.athena, rfl, List.mem_of_elem_eq_true h3.2⟩
    · exact ⟨QueryEngine.duckdb, rfl, List.mem_of_elem_eq_true h4⟩
    · refine ⟨engines.head hne, ?_, List.head_mem hne⟩
      exact List.head?_eq_head hne
  obtain ⟨e, hsel, hmem⟩ := hsel
  refine ⟨e, hsel, hmem, ?_⟩
  unfold EngineManager.execute_query
  rw [hsel]
  have hcont : engines.contains e = true := List.elem_eq_true_of_mem hmem
  dsimp only
  rw [if_neg (by rw [hcont]; decide)]

theorem execute_query_nonempty_registry_witness :
    EngineManager.execute_query [QueryEngine.athena]
        (fun _ => { status := QStatus.success }) "SELECT 1".toList QueryEngine.auto
      = Except.ok { status := QStatus.success } := by
  obtain ⟨e, _, _, hexec⟩ :=
    execute_query_never_raises_on_nonempty_registry [QueryEngine.athena]
      (fun _ => { status := QStatus.success }) "SELECT 1".toList QueryEngine.auto
      (by decide)
  exact hexec

/-- Claim C7, counterexample: A short query containing the CTE marker
`WITH` (and no join/group-by marker) is routed to DuckDB even though
Athena is registered: the DuckDB fast path is tested first, so the
claim that every query containing a window/CTE marker routes to the
interactive-serverless engine is false. -/
theorem select_engine_cte_counterexample :
    select_engine [QueryEngine.duckdb, QueryEngine.athena]
        "WITH t AS (SELECT 1) SELECT * FROM t".toList QueryEngine.auto
      = some QueryEngine.duckdb ∧
    isSubstring "WITH".toList
        (upperStr "WITH t AS (SELECT 1) SELECT * FROM t".toList) = true := by
  exact ⟨rfl, rfl⟩

/-- Claim C7, amended: With no explicit preference: (1) short
(`< 500` chars) queries free of `JOIN` and `GROUP BY` markers route to
DuckDB when registered — even if they contain `WINDOW` or `WITH`;
(2) only when that fast path does not fire does a query containing a
`JOIN`/`GROUP BY`/`WINDOW`/`WITH` marker route to Athena when
registered; (3) otherwise the fallback is DuckDB if registered, else
the first registered engine in insertion order. -/
theorem select_engine_heuristic :
    (∀ (engines : EngineRegistry) (sql : Str),
      isSubstring "JOIN".toList (upperStr sql) = false →
      isSubstring "GROUP BY".toList (upperStr sql) = false →
      sql.length < 500 →
      engines.contains QueryEngine.duckdb = true →
      select_engine engines sql QueryEngine.auto = some QueryEngine.duckdb) ∧
    (∀ (engines : EngineRegistry) (sql : Str),
      ((!isSubstring "JOIN".toList (upperStr sql)
          && !isSubstring "GROUP BY".toList (upperStr sql)
          && decide (sql.length < 500))
        && engines.contains QueryEngine.duckdb) = false →
      (isSubstring "JOIN".toList (upperStr sql)
          || isSubstring "GROUP BY".toList (upperStr sql)
          || isSubstring "WINDOW".toList (upperStr sql)
          || isSubstring "WITH".toList (upperStr sql)) = true →
      engines.contains QueryEngine.athena = true →
      select_engine engines sql QueryEngine.auto = some QueryEngine.athena) ∧
    (∀ (engines : EngineRegistry) (sql : Str),
      ((!isSubstring "JOIN".toList (upperStr sql)
          && !isSubstring "GROUP BY".toList (upperStr sql)
          && decide (sql.length < 500))
        && engines.contains QueryEngine.duckdb) = false →
      ((isSubstring "JOIN".toList (upperStr sql)
          || isSubstring "GROUP BY".toList (upperStr sql)
          || isSubstring "WINDOW".toList (upperStr sql)
          || isSubstring "WITH".toList (upperStr sql))
        && engines.contains QueryEngine.athena) = false →
      select_engine engines sql QueryEngine.auto =
        (if engines.contains QueryEngine.duckdb = true then some QueryEngine.duckdb
         else engines.head?)) := by
  have hauto : (QueryEngine.auto != QueryEngine.auto) = false := by decide
  refine ⟨?_, ?_, ?_⟩
  · intro engines sql h1 h2 h3 h4
    unfold select_engine
    rw [if_neg (by simp [hauto])]
    rw [if_pos (by rw [h1, h2, h4]; simp [h3])]
  · intro engines sql h1 hm ha
    unfold select_engine
    rw [if_neg (by simp [hauto])]
    rw [if_neg (by rw [h1]; simp)]
    rw [if_pos (by rw [hm, ha]; decide)]
  · intro engines sql h1 h2
    unfold select_engine
    rw [if_neg (by simp [hauto])]
    rw [if_neg (by rw [h1]; simp)]
    rw [if_neg (by rw [h2]; simp)]

theorem select_engine_join_witness :
    select_engine [QueryEngine.athena]
        "SELECT * FROM a JOIN b ON a.id = b.id".toList QueryEngine.auto
      = some QueryEngine.athena :=
  select_engine_heuristic.2.1 [QueryEngine.athena]
    "SELECT * FROM a JOIN b ON a.id = b.id".toList
    (by decide) (by decide) (by decide)

/-- Claim C10, counterexample: `limit = 0` is non-null, and
`'SELECT * FROM t'` contains no `LIMIT` substring — yet no limit
clause is appended, because Python's `if limit` treats `0` as falsy.
The claimed iff (appended exactly when `LIMIT` is absent) fails. -/
theorem apply_limit_clause_zero_counterexample :
    apply_limit_clause (some 0) "SELECT * FROM t".toList = "SELECT * FROM t".toList ∧
    isSubstring "LIMIT".toList (upperStr "SELECT * FROM t".toList) = false := by
  exact ⟨rfl, rfl⟩

/-- Claim C10, amended: For every *truthy* (positive) limit, the suffix
`' LIMIT {limit}'` is appended iff the rewritten query does not
already contain the substring `'LIMIT'` case-insensitively anywhere
(so a `LIMIT` occurring even inside an identifier silently suppresses
the caller's limit); a `None` or `0` limit never appends anything. -/
theorem apply_limit_clause_spec :
    (∀ (l : Nat) (q : Str), 0 < l →
      apply_limit_clause (some l) q =
        (if isSubstring "LIMIT".toList (upperStr q) = true then q
         else q ++ " LIMIT ".toList ++ natStr l)) ∧
    (∀ q : Str, apply_limit_clause none q = q ∧ apply_limit_clause (some 0) q = q) := by
  constructor
  · intro l q hl
    have ht : pyTruthyNat (some l) = true := by
      simp only [pyTruthyNat, ne_eq, bne_iff_ne]
      omega
    by_cases hs : isSubstring "LIMIT".toList (upperStr q) = true
    · rw [if_pos hs]
      unfold apply_limit_clause
      rw [if_neg (by rw [ht, hs]; decide)]
    · have hs' : isSubstring "LIMIT".toList (upperStr q) = false :=
        Bool.eq_false_iff.mpr hs
      rw [if_neg hs]
      unfold apply_limit_clause
      rw [if_pos (by rw [ht, hs']; decide)]
      rfl
  · intro q
    exact ⟨rfl, rfl⟩

theorem apply_limit_clause_append_witness :
    apply_limit_clause (some 10) "SELECT * FROM t".toList
      = "SELECT * FROM t LIMIT 10".toList := by
  have h := apply_limit_clause_spec.1 10 "SELECT * FROM t".toList (by decide)
  rw [h]
  rfl

/-- Claim C1, counterexample: The write-permitting entry point
`modify_database_resource` passes `validate_read_only=False`, so no
keyword check runs at all: the DESTRUCTIVE query `DROP TABLE logs`
(whose tokens the classifier itself flags, and whose keyword is in the
spec's DESTRUCTIVE vocabulary) is not rejected — it proceeds to
execution and succeeds. -/
theorem modify_database_accepts_destructive_counterexample :
    modify_database_resource sampleEnv sampleArn "DROP TABLE logs".toList none none
      = (Except.ok sampleSuccess,
         [BackendEvent.testConnection, BackendEvent.executeQuery]) ∧
    contains_write_operation "DROP TABLE logs".toList = true ∧
    upperStr "DROP".toList ∈ destructive_keywords := by
  exact ⟨rfl, rfl, by decide⟩

/-- Claim C1, amended: Read-write mode applies no SQL keyword policy
whatsoever: for *every* query — including ones containing DESTRUCTIVE
keywords — `modify_database_resource` executes it, provided only that
a region is configured, the ARN has at least five `:`-segments and the
connection test passes. -/
theorem modify_database_applies_no_keyword_policy
    (env : DBEnv) (arn query : Str) (ol rn : Option Str) (r : Str)
    (hr : pyStrOr rn env.awsRegionEnv = some r) (hne : r ≠ [])
    (h5 : ¬(splitOn ':' arn).length < 5) (hc : env.connectionOk = true) :
    modify_database_resource env arn query ol rn
      = (Except.ok
          { columns := env.results.columns, rows := env.results.rows,
            output_location := env.results.output_location,
            query_execution := env.results.query_execution },
         [BackendEvent.testConnection, BackendEvent.executeQuery]) := by
  unfold modify_database_resource execute_database_query_impl
  rw [hr]
  dsimp only
  have hie : r.isEmpty = false := by
    cases r with
    | nil => exact absurd rfl hne
    | cons c cs => rfl
  rw [if_neg (by rw [hie]; decide)]
  rw [if_neg h5]
  rw [if_neg (by rw [hc]; decide)]
  rw [if_neg (by simp)]

theorem modify_database_no_policy_witness :
    modify_database_resource sampleEnv sampleArn "DELETE FROM logs".toList none none
      = (Except.ok sampleSuccess,
         [BackendEvent.testConnection, BackendEvent.executeQuery]) :=
  modify_database_applies_no_keyword_policy sampleEnv sampleArn
    "DELETE FROM logs".toList none none "us-west-2".toList
    rfl (by decide) (by decide) rfl

/-- Claim C2, counterexample: A policy-rejected read-only query is *not*
free of backend calls: `_execute_database_query` runs
`engine.test_connection()` — which executes `SELECT 1` against Athena —
*before* `validate_read_only_query`, so the rejected query still
causes one backend contact. -/
theorem policy_rejection_contacts_backend_counterexample :
    query_database_resource sampleEnv sampleArn "DROP TABLE logs".toList none none
      = (Except.error (DBError.valueError readOnlyViolationMsg),
         [BackendEvent.testConnection]) := by
  rfl

/-- Claim C2, amended: The read-only policy classification is applied
before the query itself is submitted — a policy-rejected query never
causes an `executeQuery` backend call — but it runs *after* the
connection test, so the backend has already been contacted exactly
once (the `test_connection` probe) when the rejection is raised. -/
theorem policy_rejection_precedes_execution
    (env : DBEnv) (arn query : Str) (ol rn : Option Str)
    (h : (query_database_resource env arn query ol rn).1
        = Except.error (DBError.valueError readOnlyViolationMsg)) :
    (query_database_resource env arn query ol rn).2
      = [BackendEvent.testConnection] := by
  unfold query_database_resource execute_database_query_impl at h ⊢
  cases hps : pyStrOr rn env.awsRegionEnv with
  | none =>
    rw [hps] at h
    dsimp only at h
    injection h with h1
    injection h1 with h2
    exact absurd h2 (by decide)
  | some r =>
    rw [hps] at h
    dsimp only at h ⊢
    by_cases hie : r.isEmpty = true
    · rw [if_pos hie] at h
      injection h with h1
      injection h1 with h2
      exact absurd h2 (by decide)
    · rw [if_neg hie] at h ⊢
      by_cases h5 : (splitOn ':' arn).length < 5
      · rw [if_pos h5] at h
        injection h with h1
        exact DBError.noConfusion h1
      · rw [if_neg h5] at h ⊢
        by_cases hc : env.connectionOk = true
        · rw [if_neg (by rw [hc]; decide)] at h ⊢
          by_cases hw : contains_write_operation query = true
          · rw [if_pos (by rw [hw]; decide)]
          · have hw' : contains_write_operation query = false :=
              Bool.eq_false_iff.mpr hw
            rw [if_neg (by rw [hw']; decide)] at h
            exact Except.noConfusion h
        · have hc' : env.connectionOk = false := Bool.eq_false_iff.mpr hc
          rw [if_pos (by rw [hc']; decide)] at h
          injection h with h1
          exact DBError.noConfusion h1

theorem policy_rejection_precedes_execution_witness :
    (query_database_resource sampleEnv sampleArn
        "TRUNCATE TABLE logs".toList none none).2
      = [BackendEvent.testConnection] :=
  policy_rejection_precedes_execution sampleEnv sampleArn
    "TRUNCATE TABLE logs".toList none none rfl

end S3Tables
